import Mathlib

/-!
Verification of the storyteller highlight pipeline.

Shallow embedding of the repository sources:
  - src/story_builder/core.py          (base scores, context bonus, final score)
  - src/story_builder/asset_picker.py  (asset relevance scoring and selection)
  - src/story_builder/story_builder.py (selection pass, page assembly)

Python values that can be an int or a string in the JSON stream are embedded
as `PyVal`; missing dictionary keys are embedded as `Option`; Python code that
raises an exception is embedded as `Except String`.
-/

open scoped List

/-- Embedding of a JSON scalar that the code meets either as an int or as a
string (the minute and second fields come in both forms). -/
inductive PyVal where
  | pInt (n : Int)
  | pStr (s : String)
deriving DecidableEq, Repr

/-- Python str.lower on a string, character by character (the repository only
meets ASCII event types, for which this agrees with Python). -/
def lowerStr (s : String) : String := String.mk (s.data.map Char.toLower)

/-- Python str.strip: drop whitespace from both ends. -/
def trimStr (s : String) : String :=
  String.mk (((s.data.dropWhile Char.isWhitespace).reverse.dropWhile
    Char.isWhitespace).reverse)

/-- Run of decimal digits folded into a number; any non-digit fails. -/
def digitsToNat : List Char → Nat → Option Nat
  | [], acc => some acc
  | c :: cs, acc =>
      if c.isDigit then digitsToNat cs (acc * 10 + (c.toNat - 48)) else none

/-- Python int(...) on a trimmed string: an optional sign followed by at
least one digit; anything else raises ValueError, embedded as none. -/
def parseIntStr (s : String) : Option Int :=
  match s.data with
  | [] => none
  | c :: rest =>
      if c = '-' then
        match rest with
        | [] => none
        | _ => (digitsToNat rest 0).map (fun n => -(n : Int))
      else if c = '+' then
        match rest with
        | [] => none
        | _ => (digitsToNat rest 0).map (fun n => (n : Int))
      else (digitsToNat (c :: rest) 0).map (fun n => (n : Int))

/-- Embedding of core.py `_parse_minute`: `int(event.get("minute", 0))`, with
TypeError and ValueError caught and mapped to 0.  A missing key gives the int
default 0; an int passes through; a string is parsed after stripping
whitespace as Python int does, and a string that does not parse gives 0. -/
def pyToInt : Option PyVal → Int
  | none => 0
  | some (.pInt n) => n
  | some (.pStr s) => (parseIntStr (trimStr s)).getD 0

/-- Embedding of the normalisation `s.lower().strip()` used throughout the
sources (core.py line 21 and line 48, story_builder.py line 180,
asset_picker.py line 108). -/
def pyNormalize (s : String) : String := trimStr (lowerStr s)

/-- Embedding of a match event record.  Fields the code reads with
`event.get(...)` are `Option`; `comment` defaults to the empty string as in
`event.get("comment", "")`. -/
structure Event where
  type? : Option String := none
  minute? : Option PyVal := none
  second? : Option PyVal := none
  teamRef1? : Option String := none
  playerRef1? : Option String := none
  playerRef2? : Option String := none
  comment : String := ""
deriving DecidableEq, Repr

/-- Normalised event type of an event: `str(event.get("type", "")).lower().strip()`. -/
def normType (ev : Event) : String := pyNormalize (ev.type?.getD "")

/-- The BASE_SCORES table from core.py lines 1-13. -/
def BASE_SCORES : List (String × Int) :=
  [("goal", 100),
   ("penalty goal", 95),
   ("red card", 90),
   ("penalty won", 70),
   ("penalty lost", 60),
   ("attempt saved", 60),
   ("attempt blocked", 55),
   ("post", 50),
   ("miss", 40),
   ("yellow card", 30),
   ("corner", 10)]

/-- Embedding of core.py `get_base_score`:
`BASE_SCORES.get(event_type.lower().strip(), 0)`. -/
def getBaseScore (eventType : String) : Int :=
  (BASE_SCORES.lookup (pyNormalize eventType)).getD 0

/-- Accumulator of `compute_context_bonus`: the running `bonus` int and the
`reasons` list.  Each Python reason string "label=amount" is embedded as the
(label, amount) pair carrying the same data. -/
abbrev BonusAcc := Int × List (String × Int)

/-- One Python statement pair `if cond: bonus += amt; reasons.append("label=amt")`. -/
def addIf (c : Prop) [Decidable c] (label : String) (amt : Int) (acc : BonusAcc) : BonusAcc :=
  if c then (acc.1 + amt, acc.2 ++ [(label, amt)]) else acc

/-- Section 1 of `compute_context_bonus` (core.py lines 54-59): +15 at minute
80 or later, +5 more at 90 or later.  Python nests the second test inside the
first; since 90 ≤ m implies 80 ≤ m the unnested form is the same function. -/
def timeBonus (minute : Int) (acc : BonusAcc) : BonusAcc :=
  addIf (90 ≤ minute) "very_late" 5 (addIf (80 ≤ minute) "late_game" 15 acc)

/-- Section 3 of `compute_context_bonus` (core.py lines 81-106): the scoreline
bonuses, computed from the pre-event score (sh, sa) and the post-event score
(nh, na). -/
def scorelineBonus (sh sa nh na : Int) (acc : BonusAcc) : BonusAcc :=
  addIf (2 ≤ (sh - sa).natAbs) "extend_big_lead" 5
    (addIf ((sh - sa).natAbs = 1 ∧ (nh - na).natAbs = 2) "extend_lead" 15
      (addIf ((sh - sa).natAbs = 0 ∧ (nh - na).natAbs = 1) "go_ahead" 30
        (addIf ((nh - na).natAbs = 0) "equalizer" 30
          (addIf (sh = 0 ∧ sa = 0) "first_goal" 25 acc))))

/-- Section 4 of `compute_context_bonus` (core.py lines 109-112): big chance
in a tight game. -/
def tightBonus (etype : String) (sh sa minute : Int) (acc : BonusAcc) : BonusAcc :=
  addIf ((etype = "attempt saved" ∨ etype = "attempt blocked" ∨
          etype = "miss" ∨ etype = "post")
         ∧ (sh - sa).natAbs ≤ 1 ∧ 75 ≤ minute) "tight_game_chance" 20 acc

/-- Result dictionary of `compute_context_bonus`. -/
structure BonusResult where
  bonus : Int
  reasons : List (String × Int)
deriving DecidableEq, Repr

/-- Packs the accumulator into the returned dictionary. -/
def toBonusResult (acc : BonusAcc) : BonusResult := { bonus := acc.1, reasons := acc.2 }

/-- Embedding of core.py `compute_context_bonus` (lines 31-114).  Sections run
in source order: time bonus, penalty bonus, then for goal-type events the
scoreline section, which returns early with the bonus accumulated so far when
`teamRef1` matches neither team id (skipping section 4, which for goal-type
events adds nothing anyway), and finally the tight-game section. -/
def computeContextBonus (ev : Event) (sh sa : Int) (home away : String) : BonusResult :=
  let minute := pyToInt ev.minute?
  let etype := normType ev
  let acc := addIf (etype = "penalty goal") "penalty_goal_bonus" 10
    (timeBonus minute (0, []))
  if etype = "goal" ∨ etype = "penalty goal" then
    if ev.teamRef1? = some home then
      toBonusResult (tightBonus etype sh sa minute (scorelineBonus sh sa (sh + 1) sa acc))
    else if ev.teamRef1? = some away then
      toBonusResult (tightBonus etype sh sa minute (scorelineBonus sh sa sh (sa + 1) acc))
    else
      toBonusResult acc
  else
    toBonusResult (tightBonus etype sh sa minute acc)

/-- Result dictionary of `compute_final_score`. -/
structure ScoreResult where
  score : Int
  base : Int
  context_bonus : Int
  bonus_reasons : List (String × Int)
deriving DecidableEq, Repr

/-- Embedding of core.py `compute_final_score` (lines 117-135): zero base
short-circuits to the all-zero result; otherwise the context bonus is added. -/
def computeFinalScore (ev : Event) (sh sa : Int) (home away : String) : ScoreResult :=
  let base := getBaseScore (ev.type?.getD "")
  if base = 0 then
    { score := 0, base := 0, context_bonus := 0, bonus_reasons := [] }
  else
    let c := computeContextBonus ev sh sa home away
    { score := base + c.bonus, base := base, context_bonus := c.bonus,
      bonus_reasons := c.reasons }

/-- The order in which `compute_context_bonus` can append reasons: a run of
the engine produces a subsequence of this list. -/
def reasonOrder : List (String × Int) :=
  [("late_game", 15), ("very_late", 5), ("penalty_goal_bonus", 10),
   ("first_goal", 25), ("equalizer", 30), ("go_ahead", 30),
   ("extend_lead", 15), ("extend_big_lead", 5), ("tight_game_chance", 20)]

/-- Concrete event from the spec scenario: a goal at minute 5 by team A. -/
def goalEvent5 : Event :=
  { type? := some "goal", minute? := some (.pStr "5"), teamRef1? := some "A" }

/-- Concrete event from the spec scenario: a corner at minute 10. -/
def cornerEvent10 : Event :=
  { type? := some "corner", minute? := some (.pInt 10) }

/-- Concrete event: a goal at minute 45 by team B (the away team). -/
def awayGoal45 : Event :=
  { type? := some "goal", minute? := some (.pStr "45"), teamRef1? := some "B" }

/-- Concrete event with a type outside the BASE_SCORES table. -/
def throwInEvent : Event := { type? := some "throw in" }

/-- Boolean substring test on character lists, embedding the Python string
operator `in`: the needle occurs somewhere in the haystack (the empty needle
occurs in everything). -/
def containsSub : List Char → List Char → Bool
  | n, [] => n.isEmpty
  | n, h :: t => List.isPrefixOf n (h :: t) || containsSub n t

/-- Python `needle in haystack` on strings. -/
def substr (needle haystack : String) : Bool :=
  containsSub needle.data haystack.data

/-- Embedding of an asset record as normalised by
`load_asset_descriptions` (asset_picker.py lines 28-41): the filename, the
description, and the case-folded description actually used for matching. -/
structure Asset where
  filename : String
  description : String
  description_lower : String
deriving DecidableEq, Repr

/-- The player-name part of `_score_asset_for_event` (asset_picker.py lines
60-66): +100 for every involved player name that, stripped and lower-cased,
occurs in the case-folded description; blank names are skipped. -/
def playerNameScore (names : List String) (desc : String) : Int :=
  names.foldl (fun s name =>
    let n := trimStr name
    if n = "" then s
    else if substr (lowerStr n) desc then s + 100 else s) 0

/-- Embedding of `_score_asset_for_event` (asset_picker.py lines 44-85):
player-name matches plus event-type keyword bonuses, all additive. -/
def scoreAssetForEvent (asset : Asset) (eventType : String) (names : List String) : Int :=
  let desc := asset.description_lower
  let s0 := playerNameScore names desc
  let s1 := s0 + (if (eventType = "goal" ∨ eventType = "penalty goal")
                     ∧ (substr "scores" desc ∨ substr "goal" desc) then 25 else 0)
  let s2 := s1 + (if (eventType = "goal" ∨ eventType = "penalty goal")
                     ∧ (substr "celebrates" desc ∨ substr "celebration" desc) then 15 else 0)
  let s3 := s2 + (if eventType = "penalty goal" ∧ substr "penalty" desc then 25 else 0)
  s3 + (if eventType = "yellow card" ∧ substr "card" desc then 10 else 0)

/-- One iteration of the best-asset loop in `pick_asset_for_event`
(asset_picker.py lines 113-117): the current best is replaced only on a
strict improvement of the score. -/
def pickStep (etype : String) (names : List String)
    (best : Int × Option String) (asset : Asset) : Int × Option String :=
  let s := scoreAssetForEvent asset etype names
  if best.1 < s then (s, some asset.filename) else best

/-- Embedding of `pick_asset_for_event` (asset_picker.py lines 88-123): an
empty catalog returns the default at once; otherwise the catalog is scanned
in order starting from best score 0 and no best filename, and a missing best
filename at the end falls back to the default. -/
def pickAssetForEvent (ev : Event) (playerNames : List String) (assets : List Asset)
    (defaultAsset : String := "../assets/placeholder.png") : String :=
  if assets.isEmpty then defaultAsset
  else
    let etype := normType ev
    let best := assets.foldl (pickStep etype playerNames) (0, none)
    match best.2 with
    | none => defaultAsset
    | some f => "../assets/" ++ f

/-- Embedding of a contestant record from matchInfo.contestant. -/
structure Contestant where
  id : String
  name : String
  position : Option String := none
deriving DecidableEq, Repr

/-- Embedding of the matchInfo fields the builder reads. -/
structure MatchInfo where
  contestant : List Contestant
  localDate : Option String := none
deriving DecidableEq, Repr

/-- Python list indexing `contestants[i]["id"]`, raising IndexError when the
index is out of range. -/
def indexId (cs : List Contestant) (i : Nat) : Except String String :=
  match cs.get? i with
  | some c => .ok c.id
  | none => .error "IndexError: list index out of range"

/-- The fallback assignment `x = x or contestants[i]["id"]` from
`_get_home_away_ids` (story_builder.py lines 57-58): a missing or empty id is
replaced by the indexed one, and the index is only evaluated in that case. -/
def orElseIndexId (s? : Option String) (cs : List Contestant) (i : Nat) :
    Except String String :=
  match s? with
  | some s => if s = "" then indexId cs i else .ok s
  | none => indexId cs i

/-- Embedding of `_get_home_away_ids` (story_builder.py lines 42-60): scan the
contestants keeping the last id seen at each position, then fall back to the
first and second list entries when a position was never seen. -/
def getHomeAwayIds (mi : MatchInfo) : Except String (String × String) :=
  let scan := mi.contestant.foldl (fun (acc : Option String × Option String) c =>
    if c.position = some "home" then (some c.id, acc.2)
    else if c.position = some "away" then (acc.1, some c.id)
    else acc) (none, none)
  match scan with
  | (some h, some a) => .ok (h, a)
  | (h?, a?) => do
      let h ← orElseIndexId h? mi.contestant 0
      let a ← orElseIndexId a? mi.contestant 1
      .ok (h, a)

/-- The first two contestant names, read by the cover page and the story
title (story_builder.py lines 66-67 and 229-230); fewer than two contestants
raises IndexError. -/
def contestantNames (mi : MatchInfo) : Except String (String × String) :=
  match mi.contestant with
  | c0 :: c1 :: _ => .ok (c0.name, c1.name)
  | _ => .error "IndexError: list index out of range"

/-- Embedding of a story page.  The random uuid, the wall-clock created_at
timestamp, and the explanation debug string (which formats the whole
ScoreResult dictionary) are presentation metadata with no role in any
business logic and are not modelled. -/
inductive Page where
  | cover (headline caption : String)
  | highlight (minute : Int) (headline caption image : String)
      (players : List String) (event_type : Option String)
  | info (headline body : String)
deriving DecidableEq, Repr

/-- Python str.title for the fallback headline: the first letter of every
run of letters is upper-cased and the rest are lower-cased. -/
def pyTitle (s : String) : String :=
  String.mk ((s.data.foldl (fun (st : Bool × List Char) c =>
    let out := if c.isAlpha then (if st.1 then c.toLower else c.toUpper) else c
    (c.isAlpha, st.2 ++ [out])) (false, [])).2)

/-- Embedding of `_make_cover_page` (story_builder.py lines 63-81). -/
def makeCoverPage (mi : MatchInfo) (finalHome finalAway : Int) : Except String Page := do
  let names ← contestantNames mi
  let date := mi.localDate.getD "Unknown Date"
  .ok (Page.cover (names.1 ++ " vs " ++ names.2 ++ " - " ++ date)
    ("Final score " ++ toString finalHome ++ "-" ++ toString finalAway))

/-- Embedding of `_make_highlight_page` (story_builder.py lines 83-123).  The
headline joins the event-type template (note: the type is lower-cased here
but not stripped, line 95) and the player list; the dash the source prepends
to the players is a mojibake rendering of an em dash and is embedded as the
em dash. -/
def makeHighlightPage (ev : Event) (asset : String) (players : List String) : Page :=
  let minuteVal := pyToInt ev.minute?
  let etype := lowerStr (ev.type?.getD "")
  let head0 :=
    if etype = "goal" ∨ etype = "penalty goal" then "GOAL"
    else if etype = "yellow card" then "YELLOW CARD"
    else
      let t := pyTitle (ev.type?.getD "")
      if t = "" then "Highlight" else t
  let parts :=
    if players.isEmpty then [head0]
    else [head0, "— " ++ String.intercalate ", " players]
  Page.highlight minuteVal (String.intercalate " " parts) (trimStr ev.comment) asset
    players ev.type?

/-- Embedding of `_make_no_highlights_page` (story_builder.py lines 127-134). -/
def makeNoHighlightsPage : Page :=
  .info "No highlights available"
    "No events reached the highlight threshold for this match."

/-- Embedding of `resolve_player_name` (squad_utils.py lines 52-58): a plain
dictionary lookup. -/
def resolvePlayerName (playerId : String) (playersById : List (String × String)) :
    Option String :=
  playersById.lookup playerId

/-- The player resolution block of the selected-event loop (story_builder.py
lines 207-220): each of the two player refs is looked up when present and
truthy, a resolved falsy name is dropped, and the second name is dropped when
it repeats the first. -/
def resolvePlayers (ev : Event) (playersById : List (String × String)) : List String :=
  let ps : List String := []
  let ps :=
    match ev.playerRef1? with
    | some pid =>
        if pid ≠ "" then
          match resolvePlayerName pid playersById with
          | some n => if n ≠ "" then ps ++ [n] else ps
          | none => ps
        else ps
    | none => ps
  match ev.playerRef2? with
  | some pid =>
      if pid ≠ "" then
        match resolvePlayerName pid playersById with
        | some n => if n ≠ "" ∧ n ∉ ps then ps ++ [n] else ps
        | none => ps
      else ps
  | none => ps

/-- The TypeError Python raises on story_builder.py line 176, where
`final_score`, the ScoreResult dictionary returned by `compute_final_score`,
is compared against the int 0 with the operator of line 176. -/
def dictIntCompareError : String :=
  "TypeError: unsupported comparison between dict and int"

/-- The TypeError Python raises on story_builder.py line 191, where the sort
key negates `t[1]`, the ScoreResult dictionary stored in each candidate. -/
def dictNegError : String :=
  "TypeError: bad unary operand type for the minus sign: dict"

/-- Embedding of the scoring pass of `build_story_from_files`
(story_builder.py lines 169-186).  For each event Python first computes
`final_score = compute_final_score(...)` and then evaluates
`if final_score > 0:`; `final_score` is the whole result dictionary, so this
comparison raises TypeError on the very first event processed.  The candidate
append (line 177) and the running-state update (lines 179-186) are therefore
unreachable, and the pass completes only on an empty event list, yielding no
candidates and the initial scoreline. -/
def scoringLoop (home away : String) (sh sa : Int) :
    List Event → Except String (List (Nat × ScoreResult × Event) × Int × Int)
  | [] => .ok ([], sh, sa)
  | _ :: _ => .error dictIntCompareError

/-- Embedding of the running-state update alone (story_builder.py lines
179-186): a goal-type event credits a goal to the side whose id equals its
teamRef1 and any other event leaves the state unchanged.  In
`build_story_from_files` this code is unreachable, because the TypeError of
line 176 fires earlier in the same loop iteration. -/
def updateRunningState (home away : String) (ev : Event) (s : Int × Int) : Int × Int :=
  let evType := normType ev
  if evType = "goal" ∨ evType = "penalty goal" then
    match ev.teamRef1? with
    | some t =>
        if t = home then (s.1 + 1, s.2)
        else if t = away then (s.1, s.2 + 1)
        else s
    | none => s
  else s

/-- Embedding of the candidate ranking sort (story_builder.py line 191):
`scored_events.sort(key=lambda t: (-t[1], t[0]))`.  CPython computes the key
for every element before comparing, and `-t[1]` negates the ScoreResult
dictionary, so any nonempty candidate list raises TypeError; the empty list
never evaluates the key. -/
def rankCandidates : List (Nat × ScoreResult × Event) →
    Except String (List (Nat × ScoreResult × Event))
  | [] => .ok []
  | _ :: _ => .error dictNegError

/-- Stable insertion of a candidate into a list sorted by original index,
for the chronological re-sort of line 195. -/
def insertByIndex (x : Nat × ScoreResult × Event) :
    List (Nat × ScoreResult × Event) → List (Nat × ScoreResult × Event)
  | [] => [x]
  | y :: ys => if x.1 < y.1 then x :: y :: ys else y :: insertByIndex x ys

/-- The chronological re-sort `selected.sort(key=lambda t: t[0])`
(story_builder.py line 195), as a stable insertion sort on the original
index. -/
def sortByIndex (l : List (Nat × ScoreResult × Event)) :
    List (Nat × ScoreResult × Event) :=
  l.foldl (fun acc x => insertByIndex x acc) []

/-- The highlight-page loop over the selected events (story_builder.py lines
206-226). -/
def highlightPages (playersById : List (String × String)) (assetDb : List Asset) :
    List (Nat × ScoreResult × Event) → List Page
  | [] => []
  | (_, _, ev) :: rest =>
      let players := resolvePlayers ev playersById
      let asset := pickAssetForEvent ev players assetDb
      makeHighlightPage ev asset players :: highlightPages playersById assetDb rest

/-- Whether a page is a highlight page. -/
def isHighlightPage : Page → Bool
  | .highlight .. => true
  | _ => false

/-- The raw event_type field stored on a highlight page. -/
def pageEventType : Page → Option String
  | .highlight _ _ _ _ _ t => t
  | _ => none

/-- Embedding of the assembled story record, with the random story_id and the
wall-clock created_at omitted as presentation metadata. -/
structure Story where
  title : String
  pages : List Page
  metrics_goals : Nat
  metrics_highlights : Nat
  source : String
deriving DecidableEq, Repr

/-- Embedding of `build_story_from_files` (story_builder.py lines 138-253)
after the external loaders have produced the flattened chronological event
list, the match info, the merged player directory, and the asset catalog.
The steps run in source order: team ids, scoring pass, ranking sort, top-N
cut, chronological re-sort, cover page, highlight or info pages, title and
metrics. -/
def buildStory (mi : MatchInfo) (playersById : List (String × String))
    (assetDb : List Asset) (events : List Event) (topN : Nat) :
    Except String Story := do
  let ids ← getHomeAwayIds mi
  let passed ← scoringLoop ids.1 ids.2 0 0 events
  let ranked ← rankCandidates passed.1
  let selected := sortByIndex (ranked.take topN)
  let cover ← makeCoverPage mi passed.2.1 passed.2.2
  let pages :=
    if selected.isEmpty then [cover, makeNoHighlightsPage]
    else cover :: highlightPages playersById assetDb selected
  let names ← contestantNames mi
  let hpages := pages.filter (fun p => isHighlightPage p)
  let goalLike := hpages.filter (fun p =>
    pageEventType p == some "goal" || pageEventType p == some "penalty goal")
  .ok { title := names.1 ++ " vs " ++ names.2, pages := pages,
        metrics_goals := goalLike.length, metrics_highlights := hpages.length,
        source := "../data/match_events.json" }

/-- Concrete match info with the two teams of the spec scenarios. -/
def matchInfoAB : MatchInfo :=
  { contestant := [{ id := "team_a", name := "Team A", position := some "home" },
                   { id := "team_b", name := "Team B", position := some "away" }],
    localDate := some "2025-11-26" }

/-- Concrete asset whose description names a player and a goal. -/
def assetAliceGoal : Asset :=
  { filename := "alice.jpg", description := "Alice scores a goal",
    description_lower := "alice scores a goal" }

/-- Concrete asset whose description matches nothing. -/
def assetCrowd : Asset :=
  { filename := "crowd.jpg", description := "The crowd waves",
    description_lower := "the crowd waves" }

theorem addIf_sum (c : Prop) [Decidable c] (label : String) (amt : Int)
    (acc : BonusAcc) (h : acc.1 = (acc.2.map Prod.snd).sum) :
    (addIf c label amt acc).1 = ((addIf c label amt acc).2.map Prod.snd).sum := by
  unfold addIf
  split
  · simp [h]
  · exact h

theorem addIf_nonneg (c : Prop) [Decidable c] (label : String) (amt : Int)
    (acc : BonusAcc) (hamt : 0 ≤ amt) (h : 0 ≤ acc.1) :
    0 ≤ (addIf c label amt acc).1 := by
  unfold addIf
  split
  · simp only []
    omega
  · exact h

theorem addIf_sublist (c : Prop) [Decidable c] (label : String) (amt : Int)
    (acc : BonusAcc) (L : List (String × Int)) (h : acc.2 <+ L) :
    (addIf c label amt acc).2 <+ L ++ [(label, amt)] := by
  unfold addIf
  split
  · exact h.append (List.Sublist.refl _)
  · exact h.trans (List.sublist_append_left _ _)

theorem mem_addIf (x : String × Int) (c : Prop) [Decidable c] (label : String)
    (amt : Int) (acc : BonusAcc) :
    x ∈ (addIf c label amt acc).2 ↔ x ∈ acc.2 ∨ (c ∧ x = (label, amt)) := by
  unfold addIf
  split
  case isTrue h => simp [h]
  case isFalse h => simp [h]

theorem timeBonus_sum (m : Int) (acc : BonusAcc)
    (h : acc.1 = (acc.2.map Prod.snd).sum) :
    (timeBonus m acc).1 = ((timeBonus m acc).2.map Prod.snd).sum :=
  addIf_sum _ _ _ _ (addIf_sum _ _ _ _ h)

theorem scorelineBonus_sum (sh sa nh na : Int) (acc : BonusAcc)
    (h : acc.1 = (acc.2.map Prod.snd).sum) :
    (scorelineBonus sh sa nh na acc).1 =
      ((scorelineBonus sh sa nh na acc).2.map Prod.snd).sum :=
  addIf_sum _ _ _ _ (addIf_sum _ _ _ _ (addIf_sum _ _ _ _
    (addIf_sum _ _ _ _ (addIf_sum _ _ _ _ h))))

theorem tightBonus_sum (etype : String) (sh sa m : Int) (acc : BonusAcc)
    (h : acc.1 = (acc.2.map Prod.snd).sum) :
    (tightBonus etype sh sa m acc).1 =
      ((tightBonus etype sh sa m acc).2.map Prod.snd).sum :=
  addIf_sum _ _ _ _ h

theorem contextBonus_sum (ev : Event) (sh sa : Int) (home away : String) :
    (computeContextBonus ev sh sa home away).bonus =
      ((computeContextBonus ev sh sa home away).reasons.map Prod.snd).sum := by
  have h0 : ((0, []) : BonusAcc).1 = ((((0, []) : BonusAcc).2).map Prod.snd).sum := rfl
  have hbase := addIf_sum (normType ev = "penalty goal") "penalty_goal_bonus" 10
    (timeBonus (pyToInt ev.minute?) (0, [])) (timeBonus_sum _ _ h0)
  simp only [computeContextBonus]
  split
  · split
    · exact tightBonus_sum _ _ _ _ _ (scorelineBonus_sum _ _ _ _ _ hbase)
    · split
      · exact tightBonus_sum _ _ _ _ _ (scorelineBonus_sum _ _ _ _ _ hbase)
      · exact hbase
  · exact tightBonus_sum _ _ _ _ _ hbase

theorem timeBonus_nonneg (m : Int) (acc : BonusAcc) (h : 0 ≤ acc.1) :
    0 ≤ (timeBonus m acc).1 :=
  addIf_nonneg _ _ _ _ (by omega) (addIf_nonneg _ _ _ _ (by omega) h)

theorem scorelineBonus_nonneg (sh sa nh na : Int) (acc : BonusAcc) (h : 0 ≤ acc.1) :
    0 ≤ (scorelineBonus sh sa nh na acc).1 :=
  addIf_nonneg _ _ _ _ (by omega) (addIf_nonneg _ _ _ _ (by omega)
    (addIf_nonneg _ _ _ _ (by omega) (addIf_nonneg _ _ _ _ (by omega)
      (addIf_nonneg _ _ _ _ (by omega) h))))

theorem tightBonus_nonneg (etype : String) (sh sa m : Int) (acc : BonusAcc)
    (h : 0 ≤ acc.1) : 0 ≤ (tightBonus etype sh sa m acc).1 :=
  addIf_nonneg _ _ _ _ (by omega) h

theorem contextBonus_nonneg (ev : Event) (sh sa : Int) (home away : String) :
    0 ≤ (computeContextBonus ev sh sa home away).bonus := by
  have hbase : 0 ≤ (addIf (normType ev = "penalty goal") "penalty_goal_bonus" 10
      (timeBonus (pyToInt ev.minute?) (0, []))).1 :=
    addIf_nonneg _ _ _ _ (by omega) (timeBonus_nonneg _ _ (by omega))
  simp only [computeContextBonus]
  split
  · split
    · exact tightBonus_nonneg _ _ _ _ _ (scorelineBonus_nonneg _ _ _ _ _ hbase)
    · split
      · exact tightBonus_nonneg _ _ _ _ _ (scorelineBonus_nonneg _ _ _ _ _ hbase)
      · exact hbase
  · exact tightBonus_nonneg _ _ _ _ _ hbase

theorem timeBonus_sublist (m : Int) (acc : BonusAcc) (L : List (String × Int))
    (h : acc.2 <+ L) :
    (timeBonus m acc).2 <+ L ++ [("late_game", 15), ("very_late", 5)] := by
  have h2 := addIf_sublist (90 ≤ m) "very_late" 5 _ _
    (addIf_sublist (80 ≤ m) "late_game" 15 acc L h)
  simpa [List.append_assoc] using h2

theorem scorelineBonus_sublist (sh sa nh na : Int) (acc : BonusAcc)
    (L : List (String × Int)) (h : acc.2 <+ L) :
    (scorelineBonus sh sa nh na acc).2 <+
      L ++ [("first_goal", 25), ("equalizer", 30), ("go_ahead", 30),
            ("extend_lead", 15), ("extend_big_lead", 5)] := by
  have h5 := addIf_sublist (2 ≤ (sh - sa).natAbs) "extend_big_lead" 5 _ _
    (addIf_sublist ((sh - sa).natAbs = 1 ∧ (nh - na).natAbs = 2) "extend_lead" 15 _ _
      (addIf_sublist ((sh - sa).natAbs = 0 ∧ (nh - na).natAbs = 1) "go_ahead" 30 _ _
        (addIf_sublist ((nh - na).natAbs = 0) "equalizer" 30 _ _
          (addIf_sublist (sh = 0 ∧ sa = 0) "first_goal" 25 acc L h))))
  simpa only [List.append_assoc, List.cons_append, List.singleton_append,
    List.nil_append] using h5

theorem tightBonus_sublist (etype : String) (sh sa m : Int) (acc : BonusAcc)
    (L : List (String × Int)) (h : acc.2 <+ L) :
    (tightBonus etype sh sa m acc).2 <+ L ++ [("tight_game_chance", 20)] :=
  addIf_sublist _ _ _ _ _ h

theorem contextBonus_sublist (ev : Event) (sh sa : Int) (home away : String) :
    (computeContextBonus ev sh sa home away).reasons <+ reasonOrder := by
  have h0 : (((0, []) : BonusAcc)).2 <+ ([] : List (String × Int)) :=
    List.Sublist.refl _
  have hbase := addIf_sublist (normType ev = "penalty goal") "penalty_goal_bonus" 10
    (timeBonus (pyToInt ev.minute?) (0, [])) _
    (timeBonus_sublist (pyToInt ev.minute?) (0, []) [] h0)
  simp only [List.nil_append] at hbase
  simp only [computeContextBonus, reasonOrder, toBonusResult]
  split
  · split
    · have h := tightBonus_sublist (normType ev) sh sa (pyToInt ev.minute?) _ _
        (scorelineBonus_sublist sh sa (sh + 1) sa _ _ hbase)
      simpa only [List.append_assoc, List.cons_append, List.singleton_append,
        List.nil_append] using h
    · split
      · have h := tightBonus_sublist (normType ev) sh sa (pyToInt ev.minute?) _ _
          (scorelineBonus_sublist sh sa sh (sa + 1) _ _ hbase)
        simpa only [List.append_assoc, List.cons_append, List.singleton_append,
          List.nil_append] using h
      · refine hbase.trans ?_
        show (([("late_game", 15), ("very_late", 5)] ++ [("penalty_goal_bonus", 10)]
                : List (String × Int))) <+
          (([("late_game", 15), ("very_late", 5)] ++ [("penalty_goal_bonus", 10)]) ++
           [("first_goal", 25), ("equalizer", 30), ("go_ahead", 30),
            ("extend_lead", 15), ("extend_big_lead", 5), ("tight_game_chance", 20)])
        exact List.sublist_append_left _ _
  · have h := tightBonus_sublist (normType ev) sh sa (pyToInt ev.minute?) _ _ hbase
    refine h.trans ?_
    show ((([("late_game", 15), ("very_late", 5)] ++ [("penalty_goal_bonus", 10)]) ++
          [("tight_game_chance", 20)] : List (String × Int))) <+
         (([("late_game", 15), ("very_late", 5)] ++ [("penalty_goal_bonus", 10)]) ++
          ([("first_goal", 25), ("equalizer", 30), ("go_ahead", 30),
            ("extend_lead", 15), ("extend_big_lead", 5)] ++ [("tight_game_chance", 20)]))
    exact List.Sublist.append (List.Sublist.refl _) (List.sublist_append_right _ _)

/-- Claim C3: scoring the goal event with type "goal", minute "5" and
teamRef1 "A" against the pre-event state (0, 0) with team ids ("A", "B")
yields base 100, bonus reasons containing both the first-goal component of 25
and the go-ahead component of 30, and a final score of exactly 155. -/
theorem claim3_first_goal_scenario :
    (computeFinalScore goalEvent5 0 0 "A" "B").base = 100 ∧
    ("first_goal", 25) ∈ (computeFinalScore goalEvent5 0 0 "A" "B").bonus_reasons ∧
    ("go_ahead", 30) ∈ (computeFinalScore goalEvent5 0 0 "A" "B").bonus_reasons ∧
    (computeFinalScore goalEvent5 0 0 "A" "B").score = 155 := by
  decide

/-- Claim C4: for every event whose normalised type is not a key of the
BASE_SCORES table, and for every match state and pair of team ids,
compute_final_score returns the all-zero ScoreResult with empty reasons. -/
theorem claim4_unknown_type_zero (ev : Event) (sh sa : Int) (home away : String)
    (h : BASE_SCORES.lookup (normType ev) = none) :
    computeFinalScore ev sh sa home away =
      { score := 0, base := 0, context_bonus := 0, bonus_reasons := [] } := by
  have hb : getBaseScore (ev.type?.getD "") = 0 := by
    unfold getBaseScore
    rw [show pyNormalize (ev.type?.getD "") = normType ev from rfl, h]
    rfl
  simp [computeFinalScore, hb]

/-- Witness for claim C4 at a concrete event of type "throw in". -/
theorem claim4_unknown_type_zero_witness :
    BASE_SCORES.lookup (normType throwInEvent) = none ∧
    computeFinalScore throwInEvent 3 1 "A" "B" =
      { score := 0, base := 0, context_bonus := 0, bonus_reasons := [] } :=
  ⟨by decide, claim4_unknown_type_zero throwInEvent 3 1 "A" "B" (by decide)⟩

/-- Claim C6: for every event, match state and pair of team ids, the bonus
returned by compute_context_bonus equals the sum of the amounts of the
recorded (label, amount) reasons, and the reasons are listed in the order in
which the bonus sections can trigger them (a subsequence of reasonOrder). -/
theorem claim6_bonus_sum_and_order (ev : Event) (sh sa : Int) (home away : String) :
    (computeContextBonus ev sh sa home away).bonus =
      ((computeContextBonus ev sh sa home away).reasons.map Prod.snd).sum ∧
    (computeContextBonus ev sh sa home away).reasons <+ reasonOrder :=
  ⟨contextBonus_sum ev sh sa home away, contextBonus_sublist ev sh sa home away⟩

/-- Claim C10: the context bonus is never negative, so an event whose base
score is positive gets a final score at least as large as its base score. -/
theorem claim10_bonus_nonneg (ev : Event) (sh sa : Int) (home away : String) :
    0 ≤ (computeContextBonus ev sh sa home away).bonus ∧
    (0 < (computeFinalScore ev sh sa home away).base →
      (computeFinalScore ev sh sa home away).base ≤
        (computeFinalScore ev sh sa home away).score) := by
  refine ⟨contextBonus_nonneg ev sh sa home away, fun hpos => ?_⟩
  by_cases h0 : getBaseScore (ev.type?.getD "") = 0
  · simp [computeFinalScore, h0] at hpos
  · simp only [computeFinalScore, if_neg h0]
    exact le_add_of_nonneg_right (contextBonus_nonneg ev sh sa home away)

/-- Witness for claim C10 at the concrete goal event. -/
theorem claim10_bonus_nonneg_witness :
    0 ≤ (computeContextBonus goalEvent5 0 0 "A" "B").bonus ∧
    0 < (computeFinalScore goalEvent5 0 0 "A" "B").base ∧
    (computeFinalScore goalEvent5 0 0 "A" "B").base ≤
      (computeFinalScore goalEvent5 0 0 "A" "B").score :=
  ⟨(claim10_bonus_nonneg goalEvent5 0 0 "A" "B").1, by decide,
   (claim10_bonus_nonneg goalEvent5 0 0 "A" "B").2 (by decide)⟩

/-- Claim C5: a goal-type event with a recognized team reference scored
against pre-event state (0, 0) always records the first-goal component; a
goal by the away team of a match (the two team ids being distinct) scored
against pre-event state (1, 0) always records the equalizer component and
never the go-ahead component; and no single invocation can record both the
equalizer and the go-ahead component. -/
theorem claim5_goal_components :
    (∀ (ev : Event) (home away : String),
      (normType ev = "goal" ∨ normType ev = "penalty goal") →
      (ev.teamRef1? = some home ∨ ev.teamRef1? = some away) →
      ("first_goal", 25) ∈ (computeContextBonus ev 0 0 home away).reasons) ∧
    (∀ (ev : Event) (home away : String),
      (normType ev = "goal" ∨ normType ev = "penalty goal") →
      home ≠ away →
      ev.teamRef1? = some away →
      ("equalizer", 30) ∈ (computeContextBonus ev 1 0 home away).reasons ∧
      ("go_ahead", 30) ∉ (computeContextBonus ev 1 0 home away).reasons) ∧
    (∀ (ev : Event) (sh sa : Int) (home away : String),
      ¬ (("equalizer", 30) ∈ (computeContextBonus ev sh sa home away).reasons ∧
         ("go_ahead", 30) ∈ (computeContextBonus ev sh sa home away).reasons)) := by
  refine ⟨?_, ?_, ?_⟩
  · intro ev home away hty hteam
    simp only [computeContextBonus, toBonusResult]
    rw [if_pos hty]
    by_cases hh : ev.teamRef1? = some home
    · rw [if_pos hh]
      simp [tightBonus, scorelineBonus, mem_addIf]
    · rcases hteam with h | h
      · exact absurd h hh
      · rw [if_neg hh, if_pos h]
        simp [tightBonus, scorelineBonus, mem_addIf]
  · intro ev home away hty hne hteam
    have hh : ¬ ev.teamRef1? = some home := by
      rw [hteam]
      intro hcon
      exact hne (Option.some.inj hcon).symm
    simp only [computeContextBonus, toBonusResult]
    rw [if_pos hty, if_neg hh, if_pos hteam]
    constructor
    · simp [tightBonus, scorelineBonus, mem_addIf]
    · simp [tightBonus, scorelineBonus, timeBonus, mem_addIf]
  · intro ev sh sa home away hmem
    obtain ⟨he, hg⟩ := hmem
    by_cases hty : normType ev = "goal" ∨ normType ev = "penalty goal"
    · simp only [computeContextBonus, toBonusResult] at he hg
      rw [if_pos hty] at he hg
      by_cases hh : ev.teamRef1? = some home
      · rw [if_pos hh] at he hg
        simp [tightBonus, scorelineBonus, timeBonus, mem_addIf] at he hg
        omega
      · by_cases ha : ev.teamRef1? = some away
        · rw [if_neg hh, if_pos ha] at he hg
          simp [tightBonus, scorelineBonus, timeBonus, mem_addIf] at he hg
          omega
        · rw [if_neg hh, if_neg ha] at he
          simp [timeBonus, mem_addIf] at he
    · simp only [computeContextBonus, toBonusResult] at he
      rw [if_neg hty] at he
      simp [tightBonus, timeBonus, mem_addIf] at he

/-- Witness for claim C5 at the concrete goal events of the scenarios. -/
theorem claim5_goal_components_witness :
    ("first_goal", 25) ∈ (computeContextBonus goalEvent5 0 0 "A" "B").reasons ∧
    ("equalizer", 30) ∈ (computeContextBonus awayGoal45 1 0 "A" "B").reasons ∧
    ("go_ahead", 30) ∉ (computeContextBonus awayGoal45 1 0 "A" "B").reasons :=
  ⟨claim5_goal_components.1 goalEvent5 "A" "B" (by decide) (by decide),
   (claim5_goal_components.2.1 awayGoal45 "A" "B" (by decide) (by decide) (by decide)).1,
   (claim5_goal_components.2.1 awayGoal45 "A" "B" (by decide) (by decide) (by decide)).2⟩

theorem foldl_pickStep_of_le (etype : String) (names : List String)
    (b : Int × Option String) (l : List Asset)
    (h : ∀ a ∈ l, scoreAssetForEvent a etype names ≤ b.1) :
    l.foldl (pickStep etype names) b = b := by
  induction l with
  | nil => rfl
  | cons a t ih =>
      have ha := h a (List.mem_cons_self a t)
      have hstep : pickStep etype names b a = b := by
        unfold pickStep
        rw [if_neg (by omega)]
      rw [List.foldl_cons, hstep]
      exact ih (fun x hx => h x (List.mem_cons_of_mem a hx))

theorem foldl_pickStep_fst_lt (etype : String) (names : List String) (M : Int)
    (l : List Asset) (b : Int × Option String) (hb : b.1 < M)
    (h : ∀ a ∈ l, scoreAssetForEvent a etype names < M) :
    (l.foldl (pickStep etype names) b).1 < M := by
  induction l generalizing b with
  | nil => simpa using hb
  | cons a t ih =>
      rw [List.foldl_cons]
      refine ih _ ?_ (fun x hx => h x (List.mem_cons_of_mem a hx))
      by_cases hc : b.1 < scoreAssetForEvent a etype names
      · simp only [pickStep, if_pos hc]
        exact h a (List.mem_cons_self a t)
      · simp only [pickStep, if_neg hc]
        exact hb

/-- Claim C8: the asset matcher returns the default asset whenever no catalog
asset scores above 0 (in particular on the empty catalog), and otherwise
returns the reference of the first asset attaining the strictly highest
relevance score: an asset with a positive score that strictly beats every
earlier asset and is not beaten by any later one is the one returned. -/
theorem claim8_asset_matcher (ev : Event) (names : List String) (assets : List Asset) :
    ((∀ a ∈ assets, scoreAssetForEvent a (normType ev) names ≤ 0) →
      pickAssetForEvent ev names assets = "../assets/placeholder.png") ∧
    (∀ (l₁ : List Asset) (x : Asset) (l₂ : List Asset),
      assets = l₁ ++ x :: l₂ →
      0 < scoreAssetForEvent x (normType ev) names →
      (∀ y ∈ l₁, scoreAssetForEvent y (normType ev) names <
        scoreAssetForEvent x (normType ev) names) →
      (∀ y ∈ l₂, scoreAssetForEvent y (normType ev) names ≤
        scoreAssetForEvent x (normType ev) names) →
      pickAssetForEvent ev names assets = "../assets/" ++ x.filename) := by
  constructor
  · intro h
    match assets, h with
    | [], _ => rfl
    | a :: t, h =>
        have hfold := foldl_pickStep_of_le (normType ev) names (0, none) (a :: t) h
        simp only [pickAssetForEvent, List.isEmpty_cons, Bool.false_eq_true,
          if_false, hfold]
  · intro l₁ x l₂ heq hx h₁ h₂
    subst heq
    have hne : ((l₁ ++ x :: l₂).isEmpty = true) = False := by
      simp
    have hb1 : ((l₁.foldl (pickStep (normType ev) names) (0, none)).1) <
        scoreAssetForEvent x (normType ev) names :=
      foldl_pickStep_fst_lt (normType ev) names _ l₁ (0, none) hx h₁
    have hstep : pickStep (normType ev) names
        (l₁.foldl (pickStep (normType ev) names) (0, none)) x =
        (scoreAssetForEvent x (normType ev) names, some x.filename) := by
      show (if (l₁.foldl (pickStep (normType ev) names) (0, none)).1 <
              scoreAssetForEvent x (normType ev) names then
            (scoreAssetForEvent x (normType ev) names, some x.filename)
          else l₁.foldl (pickStep (normType ev) names) (0, none)) =
        (scoreAssetForEvent x (normType ev) names, some x.filename)
      rw [if_pos hb1]
    have hrest := foldl_pickStep_of_le (normType ev) names
      (scoreAssetForEvent x (normType ev) names, some x.filename) l₂ h₂
    simp only [pickAssetForEvent, hne, if_false, List.foldl_append,
      List.foldl_cons, hstep, hrest]

/-- Witness for claim C8: the empty catalog yields the placeholder, and a
catalog whose first asset mentions the involved player and a goal beats an
irrelevant second asset. -/
theorem claim8_asset_matcher_witness :
    pickAssetForEvent cornerEvent10 [] [] = "../assets/placeholder.png" ∧
    pickAssetForEvent goalEvent5 ["Alice"] [assetAliceGoal, assetCrowd] =
      "../assets/alice.jpg" :=
  ⟨(claim8_asset_matcher cornerEvent10 [] []).1 (by simp),
   (claim8_asset_matcher goalEvent5 ["Alice"] [assetAliceGoal, assetCrowd]).2
     [] assetAliceGoal [assetCrowd] rfl (by decide) (by simp) (by decide)⟩

/-- Claim C1 (evaluation at the failing input): the scoring pass raises the
dict-versus-int TypeError on its first event instead of recording candidates
and ranking them, even though the first event scores 155, strictly above the
candidate threshold of 0. -/
theorem claim1_selection_pass_raises :
    scoringLoop "A" "B" 0 0 [goalEvent5, cornerEvent10] = .error dictIntCompareError ∧
    0 < (computeFinalScore goalEvent5 0 0 "A" "B").score :=
  ⟨rfl, by decide⟩

/-- Claim C2 (evaluation at the failing input): the spec scenario of a single
corner event at minute 10 with top_n equal to 7 does not produce a cover plus
info story; the build raises the dict-versus-int TypeError instead. -/
theorem claim2_corner_scenario_raises :
    buildStory matchInfoAB [] [] [cornerEvent10] 7 = .error dictIntCompareError := rfl

/-- Claim C7 (evaluation at the failing input): the selection pass never
maintains a running state because it raises on its first event; the
state-update statements of lines 179-186, taken alone, would credit the goal
to the home side and leave the state unchanged for a corner. -/
theorem claim7_no_state_update :
    scoringLoop "A" "B" 0 0 [goalEvent5] = .error dictIntCompareError ∧
    updateRunningState "A" "B" goalEvent5 (0, 0) = (1, 0) ∧
    updateRunningState "A" "B" cornerEvent10 (5, 3) = (5, 3) :=
  ⟨rfl, by decide, by decide⟩

/-- Claim C9 (evaluation at the failing input): with top_n equal to 0 and a
single corner event the build raises the dict-versus-int TypeError instead of
assembling the cover plus info story; only an empty event list completes, and
then the story is exactly the cover page followed by the info page. -/
theorem claim9_empty_selection :
    buildStory matchInfoAB [] [] [cornerEvent10] 0 = .error dictIntCompareError ∧
    buildStory matchInfoAB [] [] [] 0 =
      .ok { title := "Team A vs Team B",
            pages := [Page.cover "Team A vs Team B - 2025-11-26" "Final score 0-0",
                      makeNoHighlightsPage],
            metrics_goals := 0, metrics_highlights := 0,
            source := "../data/match_events.json" } :=
  ⟨rfl, rfl⟩
